import Mathlib

/-!
Verification development for `workspace.go` of the gostatus repository.

The program is a three-stage concurrent pipeline turning a stream of
Go import paths into a stream of rendered repository statuses:

* `uniqueWorker` (Discovery, workspace.go lines 83–156): resolves every
  input path via `build.Import`, skips GOROOT packages, detects the VCS
  via `vcs.FromDir` and `vcsstate.NewVCS`, and deduplicates repositories
  through the mutex-guarded map `w.repos` (`w.reposMu`, lines 26–27).
* `processFilterWorker` (State/Filter, lines 159–170): runs
  `computeVCSState` on each unique record and forwards those accepted by
  the `shouldShow` predicate.
* `presenterWorker` (Presentation, lines 229–234): maps the presenter
  over filtered records.

External collaborators (`build.Import`, `vcs.FromDir`, `vcsstate.NewVCS`,
the per-kind `vcsstate.VCS` adapter, `vcs.RepoRootForImportPath`) are
modelled as oracles: records of query results, one field per method the
source calls.  Since the registry's check-and-insert happens under one
mutex (`w.reposMu.Lock()` … `Unlock()`), any concurrent execution of the
discovery workers is equivalent to some serialization of those atomic
critical sections; a run is therefore modelled as a fold of the atomic
per-import-path step over an arbitrary list of import paths, the
arbitrary order standing for the arbitrary interleaving.
-/

set_option maxHeartbeats 1000000

/-- Whether the second character list begins with the first. -/
def startsWithChars : List Char → List Char → Bool
  | [], _ => true
  | _ :: _, [] => false
  | a :: as, b :: bs => a == b && startsWithChars as bs

/-- Whether `sub` occurs contiguously inside the character list. -/
def hasSubChars (sub : List Char) : List Char → Bool
  | [] => sub.isEmpty
  | c :: rest => startsWithChars sub (c :: rest) || hasSubChars sub rest

/-- Substring test, embedding Go's `strings.Contains(s, sub)`: true iff
`sub` occurs contiguously inside `s`. -/
def strContains (s sub : String) : Bool :=
  hasSubChars sub.data s.data

/-- The literal substring matched at workspace.go line 217. -/
def notImplementedMsg : String := "not implemented"

/-- Error outcomes of `RemoteBranchAndRevision` (workspace.go lines 190–205):
the distinguished `vcsstate.ErrNoRemote`, the structured
`vcsstate.NotFoundError` carrying the missing ref, or any other error. -/
inductive RemoteErr where
  | noRemote : RemoteErr
  | notFound : String → RemoteErr
  | other : String → RemoteErr
deriving DecidableEq

/-- Oracle for the external `vcsstate.VCS` adapter: one field per method
called by `computeVCSState`.  Each query takes the same arguments the Go
code passes and yields either the value or an error. -/
structure VCS where
  Status : String → Except String String
  Branch : String → Except String String
  Stash : String → Except String String
  RemoteURL : String → Except String String
  RemoteBranchAndRevision : String → Except RemoteErr (String × String)
  NoRemoteDefaultBranch : String
  CachedRemoteDefaultBranch : Except String String
  LocalRevision : String → String → Except String String
  Contains : String → String → String → Except String Bool
  RemoteContains : String → String → String → Except String Bool

/-- Local half of a repository record (fields as assigned by
workspace.go lines 178–189, 206–212); all fields start at zero values. -/
structure LocalState where
  Status : String := ""
  Branch : String := ""
  Stash : String := ""
  RemoteURL : String := ""
  Revision : String := ""
  ContainsRemoteRevision : Bool := false
deriving DecidableEq

/-- Remote half of a repository record (fields as assigned by
workspace.go lines 190–205, 214–225); all fields start at zero values. -/
structure RemoteState where
  Branch : String := ""
  Revision : String := ""
  RepoURL : String := ""
  NotFound : Option String := none
  ContainsLocalRevision : Bool := false
deriving DecidableEq

/-- Modelled from the spec: the repository record type `Repo` (declared in
a repository file outside src/); its fields are exactly those read and
written by workspace.go: `Path`, `Root`, the optional VCS handle `vcs`,
the unsupported-kind error `vcsError`, and the `Local`/`Remote` state. -/
structure Repo where
  Path : String
  Root : String
  vcs : Option VCS := none
  vcsError : Option String := none
  Local : LocalState := {}
  Remote : RemoteState := {}

/-- Modelled from the spec: the caller-supplied filter predicate type. -/
def RepoFilter := Repo → Bool

/-- Modelled from the spec: the caller-supplied presenter type. -/
def RepoPresenter := Repo → String

/-- The mutex-guarded map `w.repos` (workspace.go line 27), keyed by the
root import path, modelled as an association list of atomic insertions. -/
abbrev Registry := List (String × Repo)

/-- Go map lookup `w.repos[root]` on the association-list registry. -/
def regLookup : Registry → String → Option Repo
  | [], _ => none
  | (k, x) :: reg, root => if k = root then some x else regLookup reg root

/-- The set of keys present in the registry. -/
def regKeys (reg : Registry) : List String := reg.map Prod.fst

/-- One critical section of a discovery worker, exactly the code between
`w.reposMu.Lock()` and `w.reposMu.Unlock()` (workspace.go lines 101–109,
121–130, 140–149): check whether `root` is present; if absent, insert the
freshly constructed record and report it as new, otherwise change nothing
and report nothing. -/
def getOrCreate (reg : Registry) (root : String) (mk : Repo) :
    Registry × Option Repo :=
  match regLookup reg root with
  | some _ => (reg, none)
  | none => ((root, mk) :: reg, some mk)

/-- What one discovery iteration contributes to the output channels:
an error sent to `w.Errors`, nothing at all, or a new record sent to
`w.unique`. -/
inductive DiscoverOut where
  | err : String → DiscoverOut
  | skip : DiscoverOut
  | unique : Repo → DiscoverOut

/-- The `if pkg != nil` forwarding after the critical section
(workspace.go lines 112–114, 133–134, 152–153). -/
def discoverOutOf : Registry × Option Repo → Registry × DiscoverOut
  | (reg, some r) => (reg, .unique r)
  | (reg, none) => (reg, .skip)

/-- The fields of `build.Package` that `uniqueWorker` reads. -/
structure BuildPkg where
  Dir : String
  SrcRoot : String
  ImportPath : String
  Goroot : Bool
deriving DecidableEq

/-- Oracle for the external collaborators of `uniqueWorker`:
`build.Import` (with the ambient working directory `wd` absorbed),
`vcs.FromDir` yielding the VCS command name and repository root, and
`vcsstate.NewVCS` keyed by the command name. -/
structure DiscoverEnv where
  buildImport : String → Except String BuildPkg
  vcsFromDir : String → String → Except String (String × String)
  newVCS : String → Except String VCS

/-- The body of the per-import-path loop of `uniqueWorker`
(workspace.go lines 85–155). -/
def processImportPath (env : DiscoverEnv) (reg : Registry)
    (importPath : String) : Registry × DiscoverOut :=
  match env.buildImport importPath with
  | .error e => (reg, .err e)
  | .ok bpkg =>
    if bpkg.Goroot then
      (reg, .skip)
    else
      match env.vcsFromDir bpkg.Dir bpkg.SrcRoot with
      | .error _ =>
          discoverOutOf (getOrCreate reg bpkg.ImportPath
            { Path := bpkg.Dir, Root := bpkg.ImportPath })
      | .ok (cmdName, root) =>
          match env.newVCS cmdName with
          | .error e =>
              discoverOutOf (getOrCreate reg root
                { Path := bpkg.Dir, Root := root,
                  vcsError := some (cmdName ++ " not supported by vcsstate: " ++ e) })
          | .ok v =>
              discoverOutOf (getOrCreate reg root
                { Path := bpkg.Dir, Root := root, vcs := some v })

/-- A whole discovery run: the fold of the atomic step over one of the
serialization orders of the workers' critical sections. -/
def runDiscovery (env : DiscoverEnv) : Registry → List String →
    Registry × List DiscoverOut
  | reg, [] => (reg, [])
  | reg, ip :: ips =>
      let step := processImportPath env reg ip
      let rest := runDiscovery env step.1 ips
      (rest.1, step.2 :: rest.2)

/-- Oracle for `vcs.RepoRootForImportPath(root, false).Repo`
(workspace.go lines 223–225). -/
structure CEnv where
  RepoRootForImportPath : String → Except String String

/-! `computeVCSState` (workspace.go lines 172–226) is a sequence of field
assignments, each guarded by its query's success and each reading only
fields assigned earlier.  It is embedded one field per definition; the
data flow of the source (e.g. `LocalRevision` being called with the
possibly-defaulted `r.Remote.Branch`) is made explicit by which earlier
definitions each later one invokes. -/

/-- `r.Local.Status` after line 178–180. -/
def localStatusOf (v : VCS) (r : Repo) : String :=
  match v.Status r.Path with
  | .ok s => s
  | .error _ => r.Local.Status

/-- `r.Local.Branch` after lines 181–183. -/
def localBranchOf (v : VCS) (r : Repo) : String :=
  match v.Branch r.Path with
  | .ok b => b
  | .error _ => r.Local.Branch

/-- `r.Local.Stash` after lines 184–186. -/
def localStashOf (v : VCS) (r : Repo) : String :=
  match v.Stash r.Path with
  | .ok s => s
  | .error _ => r.Local.Stash

/-- `r.Local.RemoteURL` after lines 187–189. -/
def localRemoteURLOf (v : VCS) (r : Repo) : String :=
  match v.RemoteURL r.Path with
  | .ok u => u
  | .error _ => r.Local.RemoteURL

/-- `r.Remote.Branch` after the fallback chain of lines 190–205. -/
def remoteBranchOf (v : VCS) (r : Repo) : String :=
  match v.RemoteBranchAndRevision r.Path with
  | .ok (b, _) => b
  | .error .noRemote => v.NoRemoteDefaultBranch
  | .error (.notFound _) => v.NoRemoteDefaultBranch
  | .error (.other _) =>
      match v.CachedRemoteDefaultBranch with
      | .ok b => b
      | .error _ => v.NoRemoteDefaultBranch

/-- `r.Remote.Revision` after lines 190–205 (assigned only on success). -/
def remoteRevisionOf (v : VCS) (r : Repo) : String :=
  match v.RemoteBranchAndRevision r.Path with
  | .ok (_, rev) => rev
  | .error _ => r.Remote.Revision

/-- `r.Remote.NotFound` after lines 195–197 (assigned only on the
`vcsstate.NotFoundError` branch). -/
def remoteNotFoundOf (v : VCS) (r : Repo) : Option String :=
  match v.RemoteBranchAndRevision r.Path with
  | .error (.notFound ref) => some ref
  | _ => r.Remote.NotFound

/-- The `log.Printf` output of line 202, emitted only when the remote
query fails with a non-distinguished error and the cached default branch
is also unavailable. -/
def remoteLogsOf (v : VCS) (r : Repo) : List String :=
  match v.RemoteBranchAndRevision r.Path with
  | .error (.other msg) =>
      match v.CachedRemoteDefaultBranch with
      | .ok _ => []
      | .error _ => [r.Root ++ ": " ++ msg]
  | _ => []

/-- `r.Local.Revision` after lines 206–208: `LocalRevision` is called
with the (possibly defaulted) remote branch. -/
def localRevisionOf (v : VCS) (r : Repo) : String :=
  match v.LocalRevision r.Path (remoteBranchOf v r) with
  | .ok rev => rev
  | .error _ => r.Local.Revision

/-- `r.Local.ContainsRemoteRevision` after lines 209–213, guarded by a
non-empty remote revision. -/
def localContainsRemoteOf (v : VCS) (r : Repo) : Bool :=
  if remoteRevisionOf v r ≠ "" then
    match v.Contains r.Path (remoteRevisionOf v r) (remoteBranchOf v r) with
    | .ok c => c
    | .error _ => r.Local.ContainsRemoteRevision
  else r.Local.ContainsRemoteRevision

/-- `r.Remote.ContainsLocalRevision` after lines 214–222, guarded by a
non-empty local revision, with the textual "not implemented" heuristic
fallback of lines 217–221. -/
def remoteContainsLocalOf (v : VCS) (r : Repo) : Bool :=
  if localRevisionOf v r ≠ "" then
    match v.RemoteContains r.Path (localRevisionOf v r) (remoteBranchOf v r) with
    | .ok c => c
    | .error e =>
        if strContains e notImplementedMsg = true ∧
            localRevisionOf v r ≠ remoteRevisionOf v r ∧
            remoteRevisionOf v r ≠ "" then
          !(localContainsRemoteOf v r)
        else r.Remote.ContainsLocalRevision
  else r.Remote.ContainsLocalRevision

/-- `r.Remote.RepoURL` after lines 223–225 (failure silently ignored). -/
def remoteRepoURLOf (cenv : CEnv) (r : Repo) : String :=
  match cenv.RepoRootForImportPath r.Root with
  | .ok u => u
  | .error _ => r.Remote.RepoURL

/-- `computeVCSState` (workspace.go lines 172–226): returns early when no
VCS handle is attached (lines 173–176), otherwise populates every
`Local`/`Remote` field as above.  The second component collects the
`log.Printf` output. -/
def computeVCSState (cenv : CEnv) (r : Repo) : Repo × List String :=
  match r.vcs with
  | none => (r, [])
  | some v =>
      ({ r with
          Local := { Status := localStatusOf v r,
                     Branch := localBranchOf v r,
                     Stash := localStashOf v r,
                     RemoteURL := localRemoteURLOf v r,
                     Revision := localRevisionOf v r,
                     ContainsRemoteRevision := localContainsRemoteOf v r },
          Remote := { Branch := remoteBranchOf v r,
                      Revision := remoteRevisionOf v r,
                      RepoURL := remoteRepoURLOf cenv r,
                      NotFound := remoteNotFoundOf v r,
                      ContainsLocalRevision := remoteContainsLocalOf v r } },
       remoteLogsOf v r)

/-- The loop body of `processFilterWorker` over a list of unique records
(workspace.go lines 159–170).  First component: the records forwarded to
`w.processedFiltered`; second component: the trace of arguments on which
`w.shouldShow` was invoked, in order, recording each call site the source
executes (exactly one per record, on the state-populated record). -/
def processFilterRun (cenv : CEnv) (shouldShow : RepoFilter) :
    List Repo → List Repo × List Repo
  | [] => ([], [])
  | repo :: rest =>
      let repo' := (computeVCSState cenv repo).1
      let next := processFilterRun cenv shouldShow rest
      (if shouldShow repo' then repo' :: next.1 else next.1, repo' :: next.2)

/-- The loop body of `presenterWorker` over the filtered records
(workspace.go lines 229–234). -/
def presenterRun (presenter : RepoPresenter) (repos : List Repo) :
    List String := repos.map presenter

/-! ### Registry lemmas: the dedup invariant of the critical section -/

theorem regLookup_eq_none_iff (reg : Registry) (root : String) :
    regLookup reg root = none ↔ root ∉ regKeys reg := by
  induction reg with
  | nil => simp [regLookup, regKeys]
  | cons p reg ih =>
      obtain ⟨k, x⟩ := p
      by_cases h : k = root
      · subst h
        simp [regLookup, regKeys]
      · simp [regLookup, regKeys, h, ih, Ne.symm h]

theorem getOrCreate_nodup (reg : Registry) (root : String) (mk : Repo)
    (h : (regKeys reg).Nodup) :
    (regKeys (getOrCreate reg root mk).1).Nodup := by
  unfold getOrCreate
  cases hlk : regLookup reg root with
  | some x => simpa using h
  | none =>
      simp only [regKeys, List.map_cons, List.nodup_cons]
      exact ⟨(regLookup_eq_none_iff reg root).1 hlk, h⟩

theorem getOrCreate_mono (reg : Registry) (root : String) (mk : Repo)
    (root' : String) (r : Repo) (h : regLookup reg root' = some r) :
    regLookup (getOrCreate reg root mk).1 root' = some r := by
  unfold getOrCreate
  cases hlk : regLookup reg root with
  | some x => exact h
  | none =>
      have hne : root ≠ root' := by
        intro he
        subst he
        rw [hlk] at h
        exact Option.noConfusion h
      simpa [regLookup, hne] using h

theorem discoverOutOf_fst (p : Registry × Option Repo) :
    (discoverOutOf p).1 = p.1 := by
  obtain ⟨reg, o⟩ := p
  cases o <;> rfl

theorem processImportPath_nodup (env : DiscoverEnv) (reg : Registry)
    (ip : String) (h : (regKeys reg).Nodup) :
    (regKeys (processImportPath env reg ip).1).Nodup := by
  unfold processImportPath
  cases env.buildImport ip with
  | error e => exact h
  | ok bpkg =>
      cases hg : bpkg.Goroot with
      | true => simpa [hg] using h
      | false =>
          simp only [hg, Bool.false_eq_true, if_false]
          cases env.vcsFromDir bpkg.Dir bpkg.SrcRoot with
          | error e =>
              rw [discoverOutOf_fst]
              exact getOrCreate_nodup _ _ _ h
          | ok pr =>
              obtain ⟨cmdName, root⟩ := pr
              dsimp only
              cases env.newVCS cmdName with
              | error e =>
                  rw [discoverOutOf_fst]
                  exact getOrCreate_nodup _ _ _ h
              | ok v =>
                  rw [discoverOutOf_fst]
                  exact getOrCreate_nodup _ _ _ h

theorem processImportPath_mono (env : DiscoverEnv) (reg : Registry)
    (ip : String) (root : String) (r : Repo)
    (h : regLookup reg root = some r) :
    regLookup (processImportPath env reg ip).1 root = some r := by
  unfold processImportPath
  cases env.buildImport ip with
  | error e => exact h
  | ok bpkg =>
      cases hg : bpkg.Goroot with
      | true => simpa [hg] using h
      | false =>
          simp only [hg, Bool.false_eq_true, if_false]
          cases env.vcsFromDir bpkg.Dir bpkg.SrcRoot with
          | error e =>
              rw [discoverOutOf_fst]
              exact getOrCreate_mono _ _ _ _ _ h
          | ok pr =>
              obtain ⟨cmdName, root'⟩ := pr
              dsimp only
              cases env.newVCS cmdName with
              | error e =>
                  rw [discoverOutOf_fst]
                  exact getOrCreate_mono _ _ _ _ _ h
              | ok v =>
                  rw [discoverOutOf_fst]
                  exact getOrCreate_mono _ _ _ _ _ h

theorem runDiscovery_nodup (env : DiscoverEnv) (paths : List String) :
    ∀ reg : Registry, (regKeys reg).Nodup →
      (regKeys (runDiscovery env reg paths).1).Nodup := by
  induction paths with
  | nil => intro reg h; exact h
  | cons ip ips ih =>
      intro reg h
      exact ih _ (processImportPath_nodup env reg ip h)

theorem runDiscovery_mono (env : DiscoverEnv) (paths : List String) :
    ∀ (reg : Registry) (root : String) (r : Repo),
      regLookup reg root = some r →
      regLookup (runDiscovery env reg paths).1 root = some r := by
  induction paths with
  | nil => intro reg root r h; exact h
  | cons ip ips ih =>
      intro reg root r h
      exact ih _ _ _ (processImportPath_mono env reg ip root r h)

/-! ### Shape of records emitted by the discovery stage -/

theorem discoverOutOf_unique (p : Registry × Option Repo) (r : Repo)
    (h : (discoverOutOf p).2 = DiscoverOut.unique r) : p.2 = some r := by
  obtain ⟨reg, o⟩ := p
  cases o with
  | none => exact absurd h (by simp [discoverOutOf])
  | some x =>
      simp only [discoverOutOf] at h
      cases h
      rfl

theorem getOrCreate_new (reg : Registry) (root : String) (mk : Repo)
    (r : Repo) (h : (getOrCreate reg root mk).2 = some r) : r = mk := by
  unfold getOrCreate at h
  cases hlk : regLookup reg root with
  | some x => rw [hlk] at h; cases h
  | none =>
      rw [hlk] at h
      simp only [Option.some.injEq] at h
      exact h.symm

/-- Every record forwarded to `w.unique` was just constructed by
`uniqueWorker`: its `Local`/`Remote` state is at zero values, and when it
carries a `vcsError` (the unsupported-kind branch, workspace.go lines
117–137) it carries no VCS handle. -/
theorem emitted_fresh (env : DiscoverEnv) (reg : Registry) (ip : String)
    (r : Repo) (h : (processImportPath env reg ip).2 = DiscoverOut.unique r) :
    r.Local = ({} : LocalState) ∧ r.Remote = ({} : RemoteState) ∧
    (r.vcsError.isSome = true → r.vcs = none) := by
  unfold processImportPath at h
  cases hb : env.buildImport ip with
  | error e => rw [hb] at h; cases h
  | ok bpkg =>
      rw [hb] at h
      dsimp only at h
      cases hg : bpkg.Goroot with
      | true => rw [hg] at h; simp at h
      | false =>
          rw [hg] at h
          simp only [Bool.false_eq_true, if_false] at h
          cases hd : env.vcsFromDir bpkg.Dir bpkg.SrcRoot with
          | error e =>
              rw [hd] at h
              have := getOrCreate_new _ _ _ _ (discoverOutOf_unique _ _ h)
              subst this
              exact ⟨rfl, rfl, fun hm => rfl⟩
          | ok pr =>
              obtain ⟨cmdName, root⟩ := pr
              rw [hd] at h
              dsimp only at h
              cases hv : env.newVCS cmdName with
              | error e =>
                  rw [hv] at h
                  have := getOrCreate_new _ _ _ _ (discoverOutOf_unique _ _ h)
                  subst this
                  exact ⟨rfl, rfl, fun hm => rfl⟩
              | ok v =>
                  rw [hv] at h
                  have := getOrCreate_new _ _ _ _ (discoverOutOf_unique _ _ h)
                  subst this
                  exact ⟨rfl, rfl, fun hm => Bool.noConfusion hm⟩

/-- Unfolding `computeVCSState` on a record that carries a VCS handle. -/
theorem computeVCSState_some (cenv : CEnv) (r : Repo) (v : VCS)
    (hv : r.vcs = some v) :
    computeVCSState cenv r =
      ({ r with
          Local := { Status := localStatusOf v r,
                     Branch := localBranchOf v r,
                     Stash := localStashOf v r,
                     RemoteURL := localRemoteURLOf v r,
                     Revision := localRevisionOf v r,
                     ContainsRemoteRevision := localContainsRemoteOf v r },
          Remote := { Branch := remoteBranchOf v r,
                      Revision := remoteRevisionOf v r,
                      RepoURL := remoteRepoURLOf cenv r,
                      NotFound := remoteNotFoundOf v r,
                      ContainsLocalRevision := remoteContainsLocalOf v r } },
       remoteLogsOf v r) := by
  unfold computeVCSState
  rw [hv]

/-! ### Concrete instances used to exercise the theorems -/

/-- A pre-existing registry entry. -/
def exRepo0 : Repo := { Path := "/w/src/r0", Root := "r0" }

/-- A registry already holding one record. -/
def reg0 : Registry := [("r0", exRepo0)]

/-- A repo-URL resolver that always fails (failure is silently ignored). -/
def cenvEx : CEnv := { RepoRootForImportPath := fun _ => Except.error "offline" }

/-- A resolved non-GOROOT package. -/
def bpkgEx : BuildPkg :=
  { Dir := "/w/src/a", SrcRoot := "/w/src", ImportPath := "a", Goroot := false }

/-- A resolved package inside GOROOT. -/
def bpkgGoroot : BuildPkg :=
  { Dir := "/goroot/src/fmt", SrcRoot := "/goroot/src", ImportPath := "fmt",
    Goroot := true }

/-- A VCS adapter whose remote query succeeds with revision `rev2`, whose
local revision is `rev1`, and whose `RemoteContains` reports a textual
"not implemented" error. -/
def vcsEx : VCS :=
  { Status := fun _ => Except.ok "",
    Branch := fun _ => Except.ok "master",
    Stash := fun _ => Except.error "no stash",
    RemoteURL := fun _ => Except.ok "https://example.org/u/r",
    RemoteBranchAndRevision := fun _ => Except.ok ("master", "rev2"),
    NoRemoteDefaultBranch := "master",
    CachedRemoteDefaultBranch := Except.error "no cache",
    LocalRevision := fun _ _ => Except.ok "rev1",
    Contains := fun _ _ _ => Except.ok false,
    RemoteContains := fun _ _ _ =>
      Except.error "RemoteContains not implemented for this VCS" }

/-- Variant: no remote configured. -/
def vcsNoRemote : VCS :=
  { vcsEx with RemoteBranchAndRevision := fun _ => Except.error RemoteErr.noRemote }

/-- Variant: the remote ref is not found. -/
def vcsNotFound : VCS :=
  { vcsEx with
      RemoteBranchAndRevision := fun _ =>
        Except.error (RemoteErr.notFound "refs/heads/master") }

/-- Variant: the remote query fails with a non-distinguished error. -/
def vcsOtherErr : VCS :=
  { vcsEx with
      RemoteBranchAndRevision := fun _ => Except.error (RemoteErr.other "boom") }

/-- Variant: `RemoteContains` fails without the "not implemented" text. -/
def vcsNoHeuristic : VCS :=
  { vcsEx with RemoteContains := fun _ _ _ => Except.error "remote query refused" }

/-- A discovery environment whose detected VCS kind has no adapter. -/
def denvUnsupported : DiscoverEnv :=
  { buildImport := fun _ => Except.ok bpkgEx,
    vcsFromDir := fun _ _ => Except.ok ("bzr", "root1"),
    newVCS := fun _ => Except.error "unsupported" }

/-- The record the unsupported-kind branch constructs. -/
def repoUnsupported : Repo :=
  { Path := "/w/src/a", Root := "root1",
    vcsError := some ("bzr" ++ " not supported by vcsstate: " ++ "unsupported") }

/-- A discovery environment that attaches the given VCS adapter. -/
def denvVCS (v : VCS) : DiscoverEnv :=
  { buildImport := fun _ => Except.ok bpkgEx,
    vcsFromDir := fun _ _ => Except.ok ("git", "root1"),
    newVCS := fun _ => Except.ok v }

/-- The record the supported-kind branch constructs. -/
def repoWith (v : VCS) : Repo :=
  { Path := "/w/src/a", Root := "root1", vcs := some v }

/-- A discovery environment resolving into GOROOT. -/
def denvGoroot : DiscoverEnv :=
  { denvUnsupported with buildImport := fun _ => Except.ok bpkgGoroot }

/-! ### The claims -/

/-- Claim C1: for every run of the pipeline, however many import paths
are submitted and whatever the worker parallelism (modelled by the
arbitrary serialization order of the mutex-protected critical sections),
the registry map contains at most one record per distinct canonical root
(its keys stay duplicate-free), and a record, once inserted for a root,
is never overwritten by a later insertion for the same root.  The
existence check and the insertion are one atomic step (`getOrCreate`),
exactly the code between `w.reposMu.Lock()` and `w.reposMu.Unlock()`. -/
theorem C1_registry_dedup_no_overwrite (env : DiscoverEnv)
    (paths : List String) (reg : Registry) (root : String) (r : Repo)
    (hnd : (regKeys reg).Nodup) (hlk : regLookup reg root = some r) :
    (regKeys (runDiscovery env reg paths).1).Nodup ∧
    regLookup (runDiscovery env reg paths).1 root = some r :=
  ⟨runDiscovery_nodup env paths reg hnd,
   runDiscovery_mono env paths reg root r hlk⟩

theorem C1_registry_dedup_no_overwrite_witness :
    (regKeys (runDiscovery denvUnsupported reg0 ["a", "b"]).1).Nodup ∧
    regLookup (runDiscovery denvUnsupported reg0 ["a", "b"]).1 "r0" =
      some exRepo0 :=
  C1_registry_dedup_no_overwrite denvUnsupported ["a", "b"] reg0 "r0" exRepo0
    (by decide) rfl

/-- Claim C2: a record whose `vcsError` field is set (VCS kind detected
but unsupported) has none of its `Local`/`Remote` fields populated by the
state-computation step: they all remain at their zero values. -/
theorem C2_vcsError_state_untouched (denv : DiscoverEnv) (cenv : CEnv)
    (reg : Registry) (ip : String) (r : Repo)
    (hE : (processImportPath denv reg ip).2 = DiscoverOut.unique r)
    (hS : r.vcsError.isSome = true) :
    ((computeVCSState cenv r).1).Local = ({} : LocalState) ∧
    ((computeVCSState cenv r).1).Remote = ({} : RemoteState) := by
  obtain ⟨hL, hR, hvcs⟩ := emitted_fresh denv reg ip r hE
  have hv : r.vcs = none := hvcs hS
  unfold computeVCSState
  rw [hv]
  exact ⟨hL, hR⟩

theorem C2_vcsError_state_untouched_witness :
    ((computeVCSState cenvEx repoUnsupported).1).Local = ({} : LocalState) ∧
    ((computeVCSState cenvEx repoUnsupported).1).Remote = ({} : RemoteState) :=
  C2_vcsError_state_untouched denvUnsupported cenvEx [] "a" repoUnsupported
    rfl rfl

theorem discoverOutOf_ne_err (p : Registry × Option Repo) (e : String) :
    (discoverOutOf p).2 ≠ DiscoverOut.err e := by
  obtain ⟨reg, o⟩ := p
  cases o <;> simp [discoverOutOf]

/-- Claim C3 is FALSE on the code: an unsupported-VCS-kind condition does
not produce a value on the caller-visible error stream.  At this concrete
input the kind is detected but unsupported, the emitted record carries
the descriptive `vcsError`, and nothing is sent to `w.Errors`
(workspace.go lines 117–137 send the record to `w.unique` only). -/
theorem C3_counterexample :
    (processImportPath denvUnsupported [] "a").2 =
        DiscoverOut.unique repoUnsupported ∧
    repoUnsupported.vcsError.isSome = true ∧
    ∀ e, (processImportPath denvUnsupported [] "a").2 ≠ DiscoverOut.err e := by
  refine ⟨rfl, rfl, fun e h => ?_⟩
  rw [show (processImportPath denvUnsupported [] "a").2 =
        DiscoverOut.unique repoUnsupported from rfl] at h
  exact DiscoverOut.noConfusion h

/-- Claim C3 (amended): exactly one condition produces a value on the
caller-visible error stream — a resolution error for an import path
(workspace.go lines 88–91); an unsupported-VCS-kind condition is
recorded on the emitted record's `vcsError` field instead, and every
other failure is absorbed into a partial or degraded record. -/
theorem C3_error_stream_iff_resolution_error (env : DiscoverEnv)
    (reg : Registry) (ip e : String) :
    (processImportPath env reg ip).2 = DiscoverOut.err e ↔
      env.buildImport ip = Except.error e := by
  unfold processImportPath
  cases hb : env.buildImport ip with
  | error e2 => simp
  | ok bpkg =>
      dsimp only
      constructor
      · intro h
        cases hg : bpkg.Goroot with
        | true =>
            rw [hg] at h
            simp at h
        | false =>
            rw [hg] at h
            simp only [Bool.false_eq_true, if_false] at h
            cases hd : env.vcsFromDir bpkg.Dir bpkg.SrcRoot with
            | error e2 =>
                rw [hd] at h
                exact absurd h (discoverOutOf_ne_err _ e)
            | ok pr =>
                obtain ⟨cmdName, root⟩ := pr
                rw [hd] at h
                dsimp only at h
                cases hv : env.newVCS cmdName with
                | error e2 =>
                    rw [hv] at h
                    exact absurd h (discoverOutOf_ne_err _ e)
                | ok v =>
                    rw [hv] at h
                    exact absurd h (discoverOutOf_ne_err _ e)
      · intro h
        exact Except.noConfusion h

/-- Claim C8: an import path whose resolved package is part of the
standard distribution (`bpkg.Goroot`, workspace.go lines 93–95) is
skipped silently: no error is emitted, no record is created (the
registry is unchanged) and nothing is forwarded downstream. -/
theorem C8_goroot_skipped (env : DiscoverEnv) (reg : Registry)
    (ip : String) (bpkg : BuildPkg)
    (hB : env.buildImport ip = Except.ok bpkg) (hG : bpkg.Goroot = true) :
    processImportPath env reg ip = (reg, DiscoverOut.skip) := by
  unfold processImportPath
  rw [hB]
  dsimp only
  rw [hG]
  simp

theorem C8_goroot_skipped_witness :
    processImportPath denvGoroot reg0 "fmt" = (reg0, DiscoverOut.skip) :=
  C8_goroot_skipped denvGoroot reg0 "fmt" bpkgGoroot rfl rfl

/-- Claim C9: the caller-supplied filter predicate is applied exactly
once per unique record — the trace of `shouldShow` invocations has
exactly one entry per record, and that entry is the record as fully
populated by `computeVCSState`, never the raw record — and a record
rejected by the predicate is discarded: the forwarded list is exactly
the filter of the populated records, so the Presentation stage maps
the presenter over accepted records only. -/
theorem C9_filter_once_after_population (cenv : CEnv)
    (shouldShow : RepoFilter) (presenter : RepoPresenter)
    (repos : List Repo) :
    (processFilterRun cenv shouldShow repos).2 =
      repos.map (fun r => (computeVCSState cenv r).1) ∧
    (processFilterRun cenv shouldShow repos).1 =
      (repos.map (fun r => (computeVCSState cenv r).1)).filter shouldShow ∧
    presenterRun presenter (processFilterRun cenv shouldShow repos).1 =
      ((repos.map (fun r => (computeVCSState cenv r).1)).filter
          shouldShow).map presenter := by
  have h12 : (processFilterRun cenv shouldShow repos).2 =
      repos.map (fun r => (computeVCSState cenv r).1) ∧
      (processFilterRun cenv shouldShow repos).1 =
      (repos.map (fun r => (computeVCSState cenv r).1)).filter shouldShow := by
    induction repos with
    | nil => exact ⟨rfl, rfl⟩
    | cons repo rest ih =>
        obtain ⟨h1, h2⟩ := ih
        constructor
        · simp only [processFilterRun, List.map_cons]
          rw [h1]
        · simp only [processFilterRun, List.map_cons, List.filter_cons]
          cases hf : shouldShow (computeVCSState cenv repo).1 with
          | true => simp only [hf, if_true]; rw [h2]
          | false => simp only [hf, Bool.false_eq_true, if_false]; rw [h2]
  refine ⟨h12.1, h12.2, ?_⟩
  show (processFilterRun cenv shouldShow repos).1.map presenter = _
  rw [h12.2]

/-- Claim C5: when `RemoteBranchAndRevision` reports the distinguished
"no remote configured" condition (`vcsstate.ErrNoRemote`, workspace.go
lines 193–194), the resulting `Remote.Branch` equals the VCS kind's
configured default branch name and `Remote.Revision` stays empty. -/
theorem C5_noRemote_default_branch (denv : DiscoverEnv) (cenv : CEnv)
    (reg : Registry) (ip : String) (r : Repo) (v : VCS)
    (hE : (processImportPath denv reg ip).2 = DiscoverOut.unique r)
    (hv : r.vcs = some v)
    (hq : v.RemoteBranchAndRevision r.Path = Except.error RemoteErr.noRemote) :
    ((computeVCSState cenv r).1).Remote.Branch = v.NoRemoteDefaultBranch ∧
    ((computeVCSState cenv r).1).Remote.Revision = "" := by
  obtain ⟨hL, hR, _⟩ := emitted_fresh denv reg ip r hE
  rw [computeVCSState_some cenv r v hv]
  dsimp only
  constructor
  · simp [remoteBranchOf, hq]
  · simp [remoteRevisionOf, hq, hR]

theorem C5_noRemote_default_branch_witness :
    ((computeVCSState cenvEx (repoWith vcsNoRemote)).1).Remote.Branch =
        vcsNoRemote.NoRemoteDefaultBranch ∧
    ((computeVCSState cenvEx (repoWith vcsNoRemote)).1).Remote.Revision = "" :=
  C5_noRemote_default_branch (denvVCS vcsNoRemote) cenvEx [] "a"
    (repoWith vcsNoRemote) vcsNoRemote rfl rfl rfl

/-- Claim C6: when `RemoteBranchAndRevision` reports the distinguished
"ref not found on remote" condition (`vcsstate.NotFoundError`,
workspace.go lines 195–197), the resulting record has `Remote.NotFound`
set to that indicator and `Remote.Branch` equal to the VCS kind's default
branch name — non-empty whenever the configured default branch is. -/
theorem C6_notFound_recorded_default_branch (denv : DiscoverEnv)
    (cenv : CEnv) (reg : Registry) (ip : String) (r : Repo) (v : VCS)
    (ref : String)
    (hE : (processImportPath denv reg ip).2 = DiscoverOut.unique r)
    (hv : r.vcs = some v)
    (hq : v.RemoteBranchAndRevision r.Path =
            Except.error (RemoteErr.notFound ref))
    (hd : v.NoRemoteDefaultBranch ≠ "") :
    ((computeVCSState cenv r).1).Remote.NotFound = some ref ∧
    ((computeVCSState cenv r).1).Remote.Branch = v.NoRemoteDefaultBranch ∧
    ((computeVCSState cenv r).1).Remote.Branch ≠ "" := by
  obtain ⟨hL, hR, _⟩ := emitted_fresh denv reg ip r hE
  rw [computeVCSState_some cenv r v hv]
  dsimp only
  refine ⟨?_, ?_, ?_⟩
  · simp [remoteNotFoundOf, hq]
  · simp [remoteBranchOf, hq]
  · simpa [remoteBranchOf, hq] using hd

theorem C6_notFound_recorded_default_branch_witness :
    ((computeVCSState cenvEx (repoWith vcsNotFound)).1).Remote.NotFound =
        some "refs/heads/master" ∧
    ((computeVCSState cenvEx (repoWith vcsNotFound)).1).Remote.Branch =
        vcsNotFound.NoRemoteDefaultBranch ∧
    ((computeVCSState cenvEx (repoWith vcsNotFound)).1).Remote.Branch ≠ "" :=
  C6_notFound_recorded_default_branch (denvVCS vcsNotFound) cenvEx [] "a"
    (repoWith vcsNotFound) vcsNotFound "refs/heads/master" rfl rfl rfl
    (by decide)

/-- Claim C7: when `RemoteBranchAndRevision` fails with an error other
than "no remote" and "ref not found" (workspace.go lines 198–205), the
stage first takes the adapter's cached remote default branch; if that is
unavailable it logs the error and takes the VCS kind's default branch
name; provided those configured branch names are non-empty, the chain
always yields a non-empty `Remote.Branch` and never fails outward. -/
theorem C7_error_chain_branch_nonempty (denv : DiscoverEnv) (cenv : CEnv)
    (reg : Registry) (ip : String) (r : Repo) (v : VCS) (msg : String)
    (_hE : (processImportPath denv reg ip).2 = DiscoverOut.unique r)
    (hv : r.vcs = some v)
    (hq : v.RemoteBranchAndRevision r.Path =
            Except.error (RemoteErr.other msg))
    (hcb : ∀ b, v.CachedRemoteDefaultBranch = Except.ok b → b ≠ "")
    (hd : v.NoRemoteDefaultBranch ≠ "") :
    (∀ b, v.CachedRemoteDefaultBranch = Except.ok b →
        ((computeVCSState cenv r).1).Remote.Branch = b) ∧
    (∀ er, v.CachedRemoteDefaultBranch = Except.error er →
        ((computeVCSState cenv r).1).Remote.Branch = v.NoRemoteDefaultBranch ∧
        (computeVCSState cenv r).2 = [r.Root ++ ": " ++ msg]) ∧
    ((computeVCSState cenv r).1).Remote.Branch ≠ "" := by
  rw [computeVCSState_some cenv r v hv]
  dsimp only
  refine ⟨?_, ?_, ?_⟩
  · intro b hb
    simp [remoteBranchOf, hq, hb]
  · intro er her
    constructor
    · simp [remoteBranchOf, hq, her]
    · simp [remoteLogsOf, hq, her]
  · cases hc : v.CachedRemoteDefaultBranch with
    | ok b => simpa [remoteBranchOf, hq, hc] using hcb b hc
    | error er => simpa [remoteBranchOf, hq, hc] using hd

theorem C7_error_chain_branch_nonempty_witness :
    (∀ b, vcsOtherErr.CachedRemoteDefaultBranch = Except.ok b →
        ((computeVCSState cenvEx (repoWith vcsOtherErr)).1).Remote.Branch
          = b) ∧
    (∀ er, vcsOtherErr.CachedRemoteDefaultBranch = Except.error er →
        ((computeVCSState cenvEx (repoWith vcsOtherErr)).1).Remote.Branch =
          vcsOtherErr.NoRemoteDefaultBranch ∧
        (computeVCSState cenvEx (repoWith vcsOtherErr)).2 =
          [(repoWith vcsOtherErr).Root ++ ": " ++ "boom"]) ∧
    ((computeVCSState cenvEx (repoWith vcsOtherErr)).1).Remote.Branch ≠ "" :=
  C7_error_chain_branch_nonempty (denvVCS vcsOtherErr) cenvEx [] "a"
    (repoWith vcsOtherErr) vcsOtherErr "boom" rfl rfl rfl
    (fun b hb => Except.noConfusion hb) (by decide)

/-- Claim C4: when the `RemoteContains` query fails with an error whose
message contains "not implemented" and the record's local and remote
revisions are both non-empty and differ, the resulting
`Remote.ContainsLocalRevision` is the logical negation of
`Local.ContainsRemoteRevision` (workspace.go lines 214–222). -/
theorem C4_notImplemented_heuristic (denv : DiscoverEnv) (cenv : CEnv)
    (reg : Registry) (ip : String) (r : Repo) (v : VCS) (e : String)
    (_hE : (processImportPath denv reg ip).2 = DiscoverOut.unique r)
    (hv : r.vcs = some v)
    (hq : v.RemoteContains r.Path
            ((computeVCSState cenv r).1).Local.Revision
            ((computeVCSState cenv r).1).Remote.Branch = Except.error e)
    (hni : strContains e notImplementedMsg = true)
    (hl : ((computeVCSState cenv r).1).Local.Revision ≠ "")
    (hrv : ((computeVCSState cenv r).1).Remote.Revision ≠ "")
    (hne : ((computeVCSState cenv r).1).Local.Revision ≠
            ((computeVCSState cenv r).1).Remote.Revision) :
    ((computeVCSState cenv r).1).Remote.ContainsLocalRevision =
      !(((computeVCSState cenv r).1).Local.ContainsRemoteRevision) := by
  rw [computeVCSState_some cenv r v hv] at hq hl hrv hne ⊢
  dsimp only at hq hl hrv hne ⊢
  unfold remoteContainsLocalOf
  rw [if_pos hl, hq]
  dsimp only
  rw [if_pos ⟨hni, hne, hrv⟩]

theorem C4_notImplemented_heuristic_witness :
    ((computeVCSState cenvEx (repoWith vcsEx)).1).Remote.ContainsLocalRevision =
      !(((computeVCSState cenvEx (repoWith vcsEx)).1).Local.ContainsRemoteRevision) :=
  C4_notImplemented_heuristic (denvVCS vcsEx) cenvEx [] "a" (repoWith vcsEx)
    vcsEx "RemoteContains not implemented for this VCS" rfl rfl rfl
    (by decide) (by decide) (by decide) (by decide)

/-- Claim C10: the heuristic fallback is triggered precisely by a textual
match — `strings.Contains(err.Error(), "not implemented")` — together
with the revision preconditions; for any `RemoteContains` failure whose
message lacks the substring, or whose preconditions fail (equal
revisions, empty remote revision, or no local revision so the query is
never attempted), `Remote.ContainsLocalRevision` stays at its zero value
`false`. -/
theorem C10_heuristic_textual_precisely (denv : DiscoverEnv) (cenv : CEnv)
    (reg : Registry) (ip : String) (r : Repo) (v : VCS) (e : String)
    (hE : (processImportPath denv reg ip).2 = DiscoverOut.unique r)
    (hv : r.vcs = some v)
    (hq : v.RemoteContains r.Path
            ((computeVCSState cenv r).1).Local.Revision
            ((computeVCSState cenv r).1).Remote.Branch = Except.error e) :
    (((computeVCSState cenv r).1).Local.Revision = "" →
        ((computeVCSState cenv r).1).Remote.ContainsLocalRevision = false) ∧
    (((computeVCSState cenv r).1).Local.Revision ≠ "" →
        ((computeVCSState cenv r).1).Remote.ContainsLocalRevision =
          if strContains e notImplementedMsg = true ∧
              ((computeVCSState cenv r).1).Local.Revision ≠
                ((computeVCSState cenv r).1).Remote.Revision ∧
              ((computeVCSState cenv r).1).Remote.Revision ≠ "" then
            !(((computeVCSState cenv r).1).Local.ContainsRemoteRevision)
          else false) := by
  obtain ⟨hL, hR, _⟩ := emitted_fresh denv reg ip r hE
  have hzero : r.Remote.ContainsLocalRevision = false := by rw [hR]
  rw [computeVCSState_some cenv r v hv] at hq ⊢
  dsimp only at hq ⊢
  constructor
  · intro hl0
    unfold remoteContainsLocalOf
    rw [if_neg (fun hne => hne hl0), hzero]
  · intro hl
    unfold remoteContainsLocalOf
    rw [if_pos hl, hq]
    dsimp only
    by_cases hc : strContains e notImplementedMsg = true ∧
        localRevisionOf v r ≠ remoteRevisionOf v r ∧
        remoteRevisionOf v r ≠ ""
    · rw [if_pos hc, if_pos hc]
    · rw [if_neg hc, if_neg hc, hzero]

theorem C10_heuristic_textual_precisely_witness :
    (((computeVCSState cenvEx (repoWith vcsNoHeuristic)).1).Local.Revision = "" →
        ((computeVCSState cenvEx (repoWith vcsNoHeuristic)).1).Remote.ContainsLocalRevision = false) ∧
    (((computeVCSState cenvEx (repoWith vcsNoHeuristic)).1).Local.Revision ≠ "" →
        ((computeVCSState cenvEx (repoWith vcsNoHeuristic)).1).Remote.ContainsLocalRevision =
          if strContains "remote query refused" notImplementedMsg = true ∧
              ((computeVCSState cenvEx (repoWith vcsNoHeuristic)).1).Local.Revision ≠
                ((computeVCSState cenvEx (repoWith vcsNoHeuristic)).1).Remote.Revision ∧
              ((computeVCSState cenvEx (repoWith vcsNoHeuristic)).1).Remote.Revision ≠ "" then
            !(((computeVCSState cenvEx (repoWith vcsNoHeuristic)).1).Local.ContainsRemoteRevision)
          else false) :=
  C10_heuristic_textual_precisely (denvVCS vcsNoHeuristic) cenvEx [] "a"
    (repoWith vcsNoHeuristic) vcsNoHeuristic "remote query refused" rfl rfl rfl
